import Mathlib

/-!
Shallow embedding of `src/api_server.py`: a FastAPI facade that wraps one
instagrapi `Client` instance.  Each HTTP handler is embedded as a pure Lean
function.  The external client calls made inside a handler's `try` block are
passed in as explicit `Except String` values (an `Except.error` models the
call raising an exception with that message); FastAPI `HTTPException`
responses are modelled by `HResp.err status detail`.  The instagrapi library
itself is outside `src/`; where a claim depends on it, a definition marked
`Modelled from the spec:` stands in for it.
-/

/-- HTTP outcome of a handler: a success payload (FastAPI serialises it with
status 200 for these routes) or an `HTTPException` carrying a status code and
a detail string. -/
inductive HResp (α : Type) where
  | ok : α → HResp α
  | err : Nat → String → HResp α
deriving DecidableEq

/-- Status code of a response; the success branch of every handler in
`src/api_server.py` uses FastAPI's default 200. -/
def HResp.status {α : Type} : HResp α → Nat
  | .ok _ => 200
  | .err s _ => s

/-- Python exceptions as they appear inside a handler body: either a raised
`fastapi.HTTPException` (status code and detail) or any other exception with
its message.  `HTTPException` subclasses `Exception`, so a blanket
`except Exception` clause catches both kinds. -/
inductive PyExc where
  | http : Nat → String → PyExc
  | client : String → PyExc
deriving DecidableEq

/-- Python `str(e)` on an exception: starlette's `HTTPException.__str__`
renders `f"\x7bstatus_code\x7d: \x7bdetail\x7d"`; for other exceptions the
message itself. -/
def strOfExc : PyExc → String
  | .http s d => toString s ++ ": " ++ d
  | .client m => m

/-- instagrapi `UserShort`: the fields read by `convert_user_short`.  The
avatar URL is optional (`profile_pic_url` may be `None`), modelled as an
optional string. -/
structure UserShort where
  pk : Nat
  username : String
  full_name : String
  is_private : Bool
  profile_pic_url : Option String
deriving DecidableEq

/-- Output record of `convert_user_short`. -/
structure UserShortOut where
  pk : Nat
  username : String
  full_name : String
  is_private : Bool
  profile_pic_url : Option String
deriving DecidableEq

/-- instagrapi `Location`; `convert_media` passes the whole object through
`.dict()`, so a representative pair of fields suffices. -/
structure IgLocation where
  pk : Nat
  name : String
deriving DecidableEq

/-- instagrapi `Media`: the fields read by `convert_media`.  `taken_at` is an
optional timestamp (modelled as `Nat`), `thumbnail_url` / `video_url` are
optional URLs, `location` and `user` are optional nested objects. -/
structure Media where
  pk : Nat
  id : String
  code : String
  taken_at : Option Nat
  media_type : Nat
  product_type : String
  thumbnail_url : Option String
  location : Option IgLocation
  user : Option UserShort
  comment_count : Nat
  like_count : Nat
  caption_text : String
  video_url : Option String
  view_count : Nat
  video_duration : Nat
deriving DecidableEq

/-- Output record of `convert_media` (timestamps rendered to strings, nested
user converted). -/
structure MediaOut where
  pk : Nat
  id : String
  code : String
  taken_at : Option String
  media_type : Nat
  product_type : String
  thumbnail_url : Option String
  location : Option IgLocation
  user : Option UserShortOut
  comment_count : Nat
  like_count : Nat
  caption_text : String
  video_url : Option String
  view_count : Nat
  video_duration : Nat
deriving DecidableEq

/-- Python `datetime.isoformat()`, modelled as an injective rendering of the
timestamp. -/
def isoformat (t : Nat) : String := toString t

-- ===========================================================================
-- strip_username (src/api_server.py lines 28-30)
-- ===========================================================================

/-- Default whitespace stripped by Python `str.strip()` (the ASCII whitespace
characters; Python also strips other Unicode space characters, which do not
occur in the inputs at issue). -/
def isPySpace (c : Char) : Bool :=
  c == ' ' || c == '\t' || c == '\n' || c == '\r' || c == '\x0b' || c == '\x0c'

/-- Python `str.lstrip` with a one-character set: drop the maximal leading run
of characters satisfying `p`. -/
def pyLStrip (p : Char → Bool) (s : List Char) : List Char := s.dropWhile p

/-- Python `str.rstrip` with a one-character set: drop the maximal trailing
run of characters satisfying `p`. -/
def pyRStrip (p : Char → Bool) (s : List Char) : List Char :=
  (s.reverse.dropWhile p).reverse

/-- Python `str.strip()` (no argument): whitespace from both ends. -/
def pyStrip (p : Char → Bool) (s : List Char) : List Char :=
  pyRStrip p (pyLStrip p s)

/-- Character-list form of `strip_username`:
`username.strip().rstrip('/').lstrip('@')`. -/
def stripUsernameChars (s : List Char) : List Char :=
  pyLStrip (fun c => c == '@') (pyRStrip (fun c => c == '/') (pyStrip isPySpace s))

/-- `strip_username` from `src/api_server.py`: strip surrounding whitespace,
then trailing slashes, then leading at-signs. -/
def strip_username (username : String) : String :=
  ⟨stripUsernameChars username.data⟩

-- ===========================================================================
-- Response transforms (src/api_server.py lines 32-60)
-- ===========================================================================

/-- `convert_user_short` from `src/api_server.py`: the guarded field follows
`str(user.profile_pic_url) if user.profile_pic_url else None`. -/
def convert_user_short (user : UserShort) : UserShortOut :=
  { pk := user.pk
    username := user.username
    full_name := user.full_name
    is_private := user.is_private
    profile_pic_url :=
      match user.profile_pic_url with
      | some url => some url
      | none => none }

/-- `convert_media` from `src/api_server.py`: each optional field follows the
pattern `f(x) if x else None`. -/
def convert_media (media : Media) : MediaOut :=
  { pk := media.pk
    id := media.id
    code := media.code
    taken_at :=
      match media.taken_at with
      | some t => some (isoformat t)
      | none => none
    media_type := media.media_type
    product_type := media.product_type
    thumbnail_url :=
      match media.thumbnail_url with
      | some url => some url
      | none => none
    location :=
      match media.location with
      | some loc => some loc
      | none => none
    user :=
      match media.user with
      | some u => some (convert_user_short u)
      | none => none
    comment_count := media.comment_count
    like_count := media.like_count
    caption_text := media.caption_text
    video_url :=
      match media.video_url with
      | some url => some url
      | none => none
    view_count := media.view_count
    video_duration := media.video_duration }

-- ===========================================================================
-- Session bootstrap (src/api_server.py lines 19-22) and /health (582-589)
-- ===========================================================================

/-- The module-level client state: the credential read from the environment
and the logged-in account id (`cl.user_id`, set by `login_by_sessionid`). -/
structure ClientState where
  sessionid : Option String
  user_id : Option Nat
deriving DecidableEq

/-- Module-level bootstrap of `src/api_server.py`:
`sessionid = os.getenv("IG_SESSIONID"); if sessionid: cl.login_by_sessionid(sessionid)`.
`login` models the (external) login call, which establishes `cl.user_id`;
it is invoked only when the environment value is present and truthy (Python
treats the empty string as falsy). -/
def bootstrap (env : Option String) (login : String → Nat) : ClientState :=
  match env with
  | none => { sessionid := none, user_id := none }
  | some s =>
      if s = "" then { sessionid := some s, user_id := none }
      else { sessionid := some s, user_id := some (login s) }

/-- Payload of the `/health` route. -/
structure HealthOut where
  status : String
  logged_in : Bool
  user_id : Option Nat
deriving DecidableEq

/-- `health` handler (`GET /health`): always succeeds, reporting whether
`cl.user_id` is set. -/
def health (cl : ClientState) : HResp HealthOut :=
  .ok { status := "ok", logged_in := cl.user_id.isSome, user_id := cl.user_id }

-- ===========================================================================
-- Followers endpoints (src/api_server.py lines 135-181)
-- ===========================================================================

/-- `user_followers` handler (`GET /user/\x7buser_id\x7d/followers`): one call
`cl.user_followers(user_id, amount)` (passed in as `call`, applied to the
shared client state); its dict values are converted in order; ANY exception
is translated to `HTTPException(500, str(e))`. -/
def user_followers (cl : ClientState)
    (call : ClientState → Nat → Nat → Except String (List UserShort))
    (user_id amount : Nat) : HResp (List UserShortOut) :=
  match call cl user_id amount with
  | .ok followers => .ok (followers.map convert_user_short)
  | .error e => .err 500 e

/-- `search_followers` handler (`GET /followers/\x7busername\x7d/search`):
normalises the username, resolves it to an id, searches, slices the results
to `amount` (`results[:amount]`) and converts them; ANY exception in the
body is translated to `HTTPException(500, str(e))`. -/
def search_followers (resolve : String → Except String Nat)
    (search : Nat → String → Except String (List UserShort))
    (username q : String) (amount : Nat) : HResp (List UserShortOut) :=
  let u := strip_username username
  match resolve u with
  | .error e => .err 500 e
  | .ok user_id =>
    match search user_id q with
    | .error e => .err 500 e
    | .ok results => .ok ((results.take amount).map convert_user_short)

/-- Modelled from the spec: the amount convention of the instagrapi client
enumeration method `cl.user_followers`, which is code of this repository not
under `src/`.  Per the spec, `amount = 0` fetches the full enumeration
bounded by a configuration constant, and `amount = N > 0` fetches the first
`N` entries in the external service's order. -/
def client_user_followers (maxConfig : Nat) (followers : List UserShort)
    (amount : Nat) : List UserShort :=
  if amount = 0 then followers.take maxConfig else followers.take amount

-- ===========================================================================
-- Username/id resolution endpoints (src/api_server.py lines 66-83)
-- ===========================================================================

/-- Modelled from the spec: `cl.user_id_from_username`, instagrapi library
code not under `src/`.  The social graph is a table of
(numeric identifier, handle) rows; resolution returns the identifier of the
row whose handle equals the (already normalised) name, if any. -/
def client_user_id_from_username (db : List (Nat × String)) (name : String) :
    Option Nat :=
  (db.find? (fun e => e.2 == name)).map (fun e => e.1)

/-- Modelled from the spec: `cl.username_from_user_id`, instagrapi library
code not under `src/`.  Returns the handle of the row with the given numeric
identifier, if any. -/
def client_username_from_user_id (db : List (Nat × String)) (pk : Nat) :
    Option String :=
  (db.find? (fun e => e.1 == pk)).map (fun e => e.2)

/-- `user_id_from_username` handler (`GET /user/id_from_username/...`):
normalises the username, resolves it, and returns both; a resolution failure
is translated to `HTTPException(404, ...)` (the source appends the library
exception's message to the detail, which the model does not track). -/
def user_id_from_username (db : List (Nat × String)) (username : String) :
    HResp (Nat × String) :=
  let u := strip_username username
  match client_user_id_from_username db u with
  | some pk => .ok (pk, u)
  | none => .err 404 "User not found"

/-- `username_from_user_id` handler (`GET /user/username_from_id/...`):
resolves the id and returns both; a failure is translated to
`HTTPException(404, ...)`. -/
def username_from_user_id (db : List (Nat × String)) (user_id : Nat) :
    HResp (Nat × String) :=
  match client_username_from_user_id db user_id with
  | some name => .ok (user_id, name)
  | none => .err 404 "User not found"

-- ===========================================================================
-- Direct send (src/api_server.py lines 488-500)
-- ===========================================================================

/-- Request body of `POST /direct/send`.  Note: the pydantic model has `text`,
`user_ids` and `thread_ids` only; there is no `usernames` field. -/
structure DirectMessageSend where
  text : String
  user_ids : List Nat
  thread_ids : List Nat
deriving DecidableEq

/-- `direct_send` handler (`POST /direct/send`): unconditionally calls
`cl.direct_send(message.text, message.user_ids, message.thread_ids)` — there
is no validation of the target lists — and translates any exception to
`HTTPException(500, str(e))`. -/
def direct_send {α : Type} (call : String → List Nat → List Nat → Except String α)
    (message : DirectMessageSend) : HResp α :=
  match call message.text message.user_ids message.thread_ids with
  | .ok r => .ok r
  | .error e => .err 500 e

-- ===========================================================================
-- Media download (src/api_server.py lines 363-383)
-- ===========================================================================

/-- Kind fields of a `Media` object as read by `media_download`. -/
structure MediaKind where
  media_type : Nat
  product_type : String
deriving DecidableEq

/-- Body of the `try` block of `media_download`: fetch the media info, then
branch on `media_type` / `product_type` to pick the retrieval call, raising
`HTTPException(400, "Unsupported media type")` for unrecognised
combinations.  Each retrieval call is passed in as an `Except PyExc` value. -/
def media_download_try (media : Except PyExc MediaKind)
    (photo_dl video_dl igtv_dl clip_dl : Except PyExc String) :
    Except PyExc String :=
  match media with
  | .error e => .error e
  | .ok m =>
    if m.media_type = 1 then photo_dl
    else if m.media_type = 2 && m.product_type == "feed" then video_dl
    else if m.media_type = 2 && m.product_type == "igtv" then igtv_dl
    else if m.media_type = 2 && m.product_type == "clips" then clip_dl
    else .error (.http 400 "Unsupported media type")

/-- `media_download` handler (`GET /media/download/...`): the whole `try`
body — including the `raise HTTPException(400, ...)` branch — is wrapped by
`except Exception as e: raise HTTPException(500, str(e))`, and
`HTTPException` is an `Exception`, so every failure surfaces as a 500. -/
def media_download (media : Except PyExc MediaKind)
    (photo_dl video_dl igtv_dl clip_dl : Except PyExc String) : HResp String :=
  match media_download_try media photo_dl video_dl igtv_dl clip_dl with
  | .ok path => .ok path
  | .error e => .err 500 (strOfExc e)

-- ===========================================================================
-- Bulk comment deletion (src/api_server.py lines 435-443)
-- ===========================================================================

/-- `comment_bulk_delete` handler (`DELETE /media/\x7bmedia_pk\x7d/comments`):
resolves the media id, calls `cl.comment_bulk_delete(media_id, comment_pks)`,
and on success reports `deleted_count = len(comment_pks)` together with the
boolean `result`; any exception is translated to `HTTPException(500, ...)`. -/
def comment_bulk_delete (media_id_res : Except String String)
    (bulk : String → List Nat → Except String Bool)
    (comment_pks : List Nat) : HResp (Bool × Nat) :=
  match media_id_res with
  | .error e => .err 500 e
  | .ok media_id =>
    match bulk media_id comment_pks with
    | .error e => .err 500 e
    | .ok result => .ok (result, comment_pks.length)

-- ===========================================================================
-- Helper lemmas about maximal-run stripping
-- ===========================================================================

/-- Boolean predicate holding on the value inside an optional character (and
vacuously on `none`). -/
def optAll (p : Char → Bool) : Option Char → Bool
  | none => true
  | some c => p c

/-- Dropping a leading run: if every element of `a` satisfies `p` and the
head of `rest` (when present) does not, `dropWhile p` removes exactly `a`. -/
theorem dropWhile_run_append {p : Char → Bool} {a rest : List Char}
    (ha : ∀ c ∈ a, p c = true)
    (hrest : optAll (fun c => !p c) rest.head? = true) :
    (a ++ rest).dropWhile p = rest := by
  induction a with
  | nil =>
    cases rest with
    | nil => rfl
    | cons r rs =>
      have hr : p r = false := by
        simpa [optAll, Bool.not_eq_true'] using hrest
      simp [List.dropWhile_cons, hr]
  | cons x xs ih =>
    have hx : p x = true := ha x (by simp)
    have ih2 := ih (fun c hc => ha c (by simp [hc]))
    simp [List.dropWhile_cons, hx, ih2]

/-- The head of an append is the head of the left part when that is known. -/
theorem head?_append_some {a b : List Char} {c : Char} (h : a.head? = some c) :
    (a ++ b).head? = some c := by
  cases a with
  | nil => simp at h
  | cons x xs => simp_all

/-- A nonempty list has a last element. -/
theorem getLast?_cons_exists (c : Char) (l : List Char) :
    ∃ d, (c :: l).getLast? = some d := by
  induction l generalizing c with
  | nil => exact ⟨c, rfl⟩
  | cons x xs ih =>
    obtain ⟨d, hd⟩ := ih x
    exact ⟨d, by rw [List.getLast?_cons_cons]; exact hd⟩

/-- Exact characterisation of `stripUsernameChars` on a decomposed input:
surrounding whitespace, then the leading run of at-signs and the trailing run
of slashes, are removed, and the delimited `core` survives unchanged. -/
theorem stripChars_exact
    (ws1 ws2 ats sls core : List Char)
    (hws1 : ∀ c ∈ ws1, isPySpace c = true)
    (hws2 : ∀ c ∈ ws2, isPySpace c = true)
    (hats : ∀ c ∈ ats, c = '@')
    (hsls : ∀ c ∈ sls, c = '/')
    (hne : core ≠ [])
    (hhead : optAll (fun c => !isPySpace c && !(c == '@')) core.head? = true)
    (hlast : optAll (fun c => !isPySpace c && !(c == '/')) core.getLast? = true) :
    stripUsernameChars (ws1 ++ (ats ++ (core ++ (sls ++ ws2)))) = core := by
  obtain ⟨c0, core', rfl⟩ := List.exists_cons_of_ne_nil hne
  have hc0P : isPySpace c0 = false ∧ (c0 == '@') = false := by
    simpa [optAll] using hhead
  have hc0sp : isPySpace c0 = false := hc0P.1
  have hc0at : (c0 == '@') = false := hc0P.2
  obtain ⟨lc, hlc⟩ := getLast?_cons_exists c0 core'
  have hlcP : isPySpace lc = false ∧ (lc == '/') = false := by
    rw [hlc] at hlast
    simpa [optAll] using hlast
  have hlcsp : isPySpace lc = false := hlcP.1
  have hlcsl : (lc == '/') = false := hlcP.2
  have hrevcore : (c0 :: core').reverse.head? = some lc := by
    rw [List.head?_reverse]
    exact hlc
  have h1 : pyLStrip isPySpace (ws1 ++ (ats ++ ((c0 :: core') ++ (sls ++ ws2))))
      = ats ++ ((c0 :: core') ++ (sls ++ ws2)) := by
    unfold pyLStrip
    apply dropWhile_run_append hws1
    cases ats with
    | nil => simp [optAll, hc0sp]
    | cons a as =>
      have ha : a = '@' := hats a (by simp)
      subst ha
      simp only [List.cons_append, List.head?_cons, optAll]
      decide
  have h2 : pyRStrip isPySpace (ats ++ ((c0 :: core') ++ (sls ++ ws2)))
      = ats ++ ((c0 :: core') ++ sls) := by
    unfold pyRStrip
    have hrev : (ats ++ ((c0 :: core') ++ (sls ++ ws2))).reverse
        = ws2.reverse ++ (sls.reverse ++ ((c0 :: core').reverse ++ ats.reverse)) := by
      simp [List.reverse_append, List.append_assoc]
    rw [hrev]
    have hall : ∀ c ∈ ws2.reverse, isPySpace c = true :=
      fun c hc => hws2 c (List.mem_reverse.mp hc)
    have hr : optAll (fun c => !isPySpace c)
        (sls.reverse ++ ((c0 :: core').reverse ++ ats.reverse)).head? = true := by
      cases hs : sls.reverse with
      | nil =>
        simp only [List.nil_append]
        rw [head?_append_some hrevcore]
        simp [optAll, hlcsp]
      | cons r rs =>
        have hrmem : r ∈ sls := List.mem_reverse.mp (by rw [hs]; exact List.mem_cons_self r rs)
        have hr' : r = '/' := hsls r hrmem
        subst hr'
        simp only [List.cons_append, List.head?_cons, optAll]
        decide
    rw [dropWhile_run_append hall hr]
    simp [List.reverse_append, List.append_assoc]
  have h3 : pyRStrip (fun c => c == '/') (ats ++ ((c0 :: core') ++ sls))
      = ats ++ (c0 :: core') := by
    unfold pyRStrip
    have hrev : (ats ++ ((c0 :: core') ++ sls)).reverse
        = sls.reverse ++ ((c0 :: core').reverse ++ ats.reverse) := by
      simp [List.reverse_append, List.append_assoc]
    rw [hrev]
    have hall : ∀ c ∈ sls.reverse, (c == '/') = true := by
      intro c hc
      simp [hsls c (List.mem_reverse.mp hc)]
    have hr : optAll (fun c => !(c == '/'))
        ((c0 :: core').reverse ++ ats.reverse).head? = true := by
      rw [head?_append_some hrevcore]
      simp [optAll, hlcsl]
    rw [dropWhile_run_append hall hr]
    simp [List.reverse_append, List.append_assoc]
  have h4 : pyLStrip (fun c => c == '@') (ats ++ (c0 :: core')) = c0 :: core' := by
    unfold pyLStrip
    apply dropWhile_run_append
    · intro c hc
      simp [hats c hc]
    · simp [optAll, hc0at]
  unfold stripUsernameChars pyStrip
  rw [h1, h2, h3, h4]

-- ===========================================================================
-- Claim theorems
-- ===========================================================================

/-- C6: for every username string decomposing into surrounding whitespace, a
leading run of at-sign characters, a core, and a trailing run of slashes —
the core itself starting with neither whitespace nor an at-sign and ending
with neither whitespace nor a slash — the normalised form used for lookups
strips exactly the surrounding whitespace, the leading at-signs and the
trailing slashes, and nothing else: the core is returned unchanged. -/
theorem C6_strip_username_exact
    (ws1 ws2 ats sls core : List Char)
    (hws1 : ∀ c ∈ ws1, isPySpace c = true)
    (hws2 : ∀ c ∈ ws2, isPySpace c = true)
    (hats : ∀ c ∈ ats, c = '@')
    (hsls : ∀ c ∈ sls, c = '/')
    (hne : core ≠ [])
    (hhead : optAll (fun c => !isPySpace c && !(c == '@')) core.head? = true)
    (hlast : optAll (fun c => !isPySpace c && !(c == '/')) core.getLast? = true) :
    strip_username ⟨ws1 ++ (ats ++ (core ++ (sls ++ ws2)))⟩ = ⟨core⟩ :=
  congrArg String.mk
    (stripChars_exact ws1 ws2 ats sls core hws1 hws2 hats hsls hne hhead hlast)

/-- Witness for C6 at the spec's own example: `"@jane/"` normalises to
`"jane"`. -/
theorem C6_witness : strip_username "@jane/" = "jane" := by
  have h := C6_strip_username_exact [] [] ['@'] ['/'] ['j', 'a', 'n', 'e']
    (by decide) (by decide) (by decide) (by decide) (by decide) (by decide) (by decide)
  exact h

/-- C7: the response transforms are total (they are plain Lean functions, so
they cannot raise), and for a domain object whose optional fields — avatar
URL, timestamp, thumbnail URL, location, owning user, video URL — are absent,
each corresponding output field is `none`. -/
theorem C7_transform_absent_fields_null (user : UserShort) (media : Media)
    (h1 : user.profile_pic_url = none)
    (h2 : media.taken_at = none)
    (h3 : media.thumbnail_url = none)
    (h4 : media.location = none)
    (h5 : media.user = none)
    (h6 : media.video_url = none) :
    (convert_user_short user).profile_pic_url = none
    ∧ (convert_media media).taken_at = none
    ∧ (convert_media media).thumbnail_url = none
    ∧ (convert_media media).location = none
    ∧ (convert_media media).user = none
    ∧ (convert_media media).video_url = none := by
  simp [convert_user_short, convert_media, h1, h2, h3, h4, h5, h6]

/-- Witness for C7 at a concrete user and media with every optional field
absent. -/
theorem C7_witness :
    (convert_user_short ⟨1, "jane", "Jane", false, none⟩).profile_pic_url = none
    ∧ (convert_media ⟨9, "9_1", "c0de", none, 1, "feed", none, none, none,
        0, 0, "cap", none, 0, 0⟩).taken_at = none
    ∧ (convert_media ⟨9, "9_1", "c0de", none, 1, "feed", none, none, none,
        0, 0, "cap", none, 0, 0⟩).thumbnail_url = none
    ∧ (convert_media ⟨9, "9_1", "c0de", none, 1, "feed", none, none, none,
        0, 0, "cap", none, 0, 0⟩).location = none
    ∧ (convert_media ⟨9, "9_1", "c0de", none, 1, "feed", none, none, none,
        0, 0, "cap", none, 0, 0⟩).user = none
    ∧ (convert_media ⟨9, "9_1", "c0de", none, 1, "feed", none, none, none,
        0, 0, "cap", none, 0, 0⟩).video_url = none :=
  C7_transform_absent_fields_null ⟨1, "jane", "Jane", false, none⟩
    ⟨9, "9_1", "c0de", none, 1, "feed", none, none, none, 0, 0, "cap", none, 0, 0⟩
    rfl rfl rfl rfl rfl rfl

/-- C1 counterexample: when the client signals that the user does not exist
(the library call raises, e.g. `UserNotFound`), the `user_followers` handler
responds 500, not 404 — refuting "the HTTP response status is 404 and never
500" at this concrete input. -/
theorem C1_counterexample :
    (user_followers { sessionid := some "sid", user_id := some 1 }
        (fun _ _ _ => .error "User not found") 42 0).status = 500
    ∧ (user_followers { sessionid := some "sid", user_id := some 1 }
        (fun _ _ _ => .error "User not found") 42 0).status ≠ 404 := by
  exact ⟨rfl, by decide⟩

/-- C1 amended: for a request to the followers endpoint (or the follower
search endpoint, where username resolution happens inside the same `try`)
whose user does not resolve — i.e. the client call raises — the response
status is 500 with the exception message as detail, never 404. -/
theorem C1_not_found_maps_to_500 (cl : ClientState) (e : String)
    (user_id amount n : Nat) (username q : String)
    (search : Nat → String → Except String (List UserShort)) :
    user_followers cl (fun _ _ _ => .error e) user_id amount = .err 500 e
    ∧ search_followers (fun _ => .error e) search username q n = .err 500 e := by
  constructor
  · rfl
  · rfl

/-- C2 counterexample: when the client signals a private, inaccessible
account (the library call raises `PrivateError`), the `user_followers`
handler responds 500, not 403 — refuting the claim at this concrete input. -/
theorem C2_counterexample :
    user_followers { sessionid := some "sid", user_id := some 1 }
        (fun _ _ _ => .error "Private account") 42 0 = .err 500 "Private account"
    ∧ (403 : Nat) ≠ (user_followers { sessionid := some "sid", user_id := some 1 }
        (fun _ _ _ => .error "Private account") 42 0).status := by
  exact ⟨rfl, by decide⟩

/-- C2 amended: for a followers request on a private account the session
cannot access, the handler returns 500 with the client's message — there is
no 403 branch; every client failure of this endpoint maps to 500. -/
theorem C2_private_maps_to_500 (cl : ClientState) (e : String)
    (user_id amount : Nat) :
    user_followers cl (fun _ _ _ => .error e) user_id amount = .err 500 e
    ∧ (user_followers cl (fun _ _ _ => .error e) user_id amount).status ≠ 403 := by
  constructor
  · rfl
  · simp [user_followers, HResp.status]

/-- C3 counterexample: a send request whose `user_ids` and `thread_ids` are
both empty (the request model has no `usernames` field at all) is passed
straight to the client: with a client that succeeds, the handler returns the
client's payload with status 200 — so no 400 is returned and the external
call is made — refuting the claim at this concrete input. -/
theorem C3_counterexample :
    direct_send (fun _ _ _ => .ok (7 : Nat)) ⟨"hi", [], []⟩ = .ok 7
    ∧ (direct_send (fun _ _ _ => .ok (7 : Nat)) ⟨"hi", [], []⟩).status = 200
    ∧ direct_send (fun _ _ _ => (.error "boom" : Except String Nat)) ⟨"hi", [], []⟩
        = .err 500 "boom" := by
  exact ⟨rfl, rfl, rfl⟩

/-- C3 amended: the handler performs no validation of the target fields; for
every request with empty `user_ids` and empty `thread_ids` it still invokes
the client, and the response is the client call's outcome — 200 on success,
500 with the message on failure — never 400. -/
theorem C3_no_validation {α : Type}
    (call : String → List Nat → List Nat → Except String α)
    (message : DirectMessageSend)
    (h1 : message.user_ids = []) (h2 : message.thread_ids = [])
    : direct_send call message
        = (match call message.text [] [] with
           | .ok r => .ok r
           | .error e => .err 500 e)
    ∧ (direct_send call message).status ≠ 400 := by
  constructor
  · rw [direct_send, h1, h2]
  · unfold direct_send HResp.status
    cases call message.text message.user_ids message.thread_ids <;> simp

/-- Witness for C3's amended statement at a concrete request. -/
theorem C3_witness :
    direct_send (fun _ _ _ => .ok (7 : Nat)) ⟨"yo", [], []⟩
      = (match (.ok 7 : Except String Nat) with
         | .ok r => .ok r
         | .error e => .err 500 e)
    ∧ (direct_send (fun _ _ _ => .ok (7 : Nat)) ⟨"yo", [], []⟩).status ≠ 400 :=
  C3_no_validation (fun _ _ _ => .ok (7 : Nat)) ⟨"yo", [], []⟩ rfl rfl

/-- C4: evaluation of `media_download` at a failing input.  For a media whose
kind/sub-kind combination is unsupported (here `media_type = 2`,
`product_type = "carousel"`), the handler's own
`raise HTTPException(400, "Unsupported media type")` is swallowed by the
blanket `except Exception` clause and re-raised as
`HTTPException(500, str(e))`: the response is a 500 whose detail is the
stringified 400 exception — contradicting the intended (and claimed) 400. -/
theorem C4_unsupported_kind_gives_500 :
    media_download (.ok ⟨2, "carousel"⟩) (.ok "p.jpg") (.ok "v.mp4")
        (.ok "i.mp4") (.ok "c.mp4")
      = .err 500 "400: Unsupported media type" := by
  decide

/-- C5 counterexample: with the credential environment variable absent,
bootstrap silently skips login; the health route stays available and reports
`logged_in = false`, but an authenticated route does NOT fail with a
Configuration error — the handler still consults the client, and here
returns 200 — refuting "every request to an authenticated route fails with a
Configuration error". -/
theorem C5_counterexample :
    user_followers (bootstrap none (fun _ => 0)) (fun _ _ _ => .ok []) 1 0 = .ok []
    ∧ health (bootstrap none (fun _ => 0))
        = .ok { status := "ok", logged_in := false, user_id := none } := by
  exact ⟨rfl, rfl⟩

/-- C5 amended: absence of the credential is a silent degraded mode: login is
skipped, the health route remains available reporting `logged_in = false`,
and an authenticated route's response is determined solely by the client
call's outcome — 200 on success, 500 with the client's message on failure —
with no Configuration error mentioning the missing environment value. -/
theorem C5_missing_credential_is_silent (login : String → Nat)
    (r : Except String (List UserShort)) (user_id amount : Nat) :
    user_followers (bootstrap none login) (fun _ _ _ => r) user_id amount
      = (match r with
         | .ok followers => .ok (followers.map convert_user_short)
         | .error e => .err 500 e)
    ∧ health (bootstrap none login)
        = .ok { status := "ok", logged_in := false, user_id := none } := by
  constructor
  · rw [user_followers]
  · rfl

/-- C8: amount semantics of the enumeration endpoints.  With the client's
amount convention (modelled from the spec, the enumeration logic living in
the library), `amount = 0` on the followers endpoint yields the full
enumeration bounded by the configuration constant, and `amount = n > 0`
yields the first `n` entries; the follower-search endpoint slices its results
to `amount` in the handler itself (`results[:amount]`).  In each case the
output has at most the requested length and is a sublist of the client's
enumeration order (order preserved). -/
theorem C8_amount_semantics (cl : ClientState) (maxConfig : Nat)
    (followers results : List UserShort) (resolved_id : Nat)
    (user_id n : Nat) (username q : String) (hn : 0 < n) :
    user_followers cl (fun _ _ a => .ok (client_user_followers maxConfig followers a))
        user_id 0
      = .ok ((followers.take maxConfig).map convert_user_short)
    ∧ user_followers cl (fun _ _ a => .ok (client_user_followers maxConfig followers a))
        user_id n
      = .ok ((followers.take n).map convert_user_short)
    ∧ (followers.take n).length ≤ n
    ∧ (followers.take n).Sublist followers
    ∧ search_followers (fun _ => .ok resolved_id) (fun _ _ => .ok results)
        username q n
      = .ok ((results.take n).map convert_user_short)
    ∧ (results.take n).length ≤ n
    ∧ (results.take n).Sublist results := by
  refine ⟨?_, ?_, ?_, ?_, ?_, ?_, ?_⟩
  · rw [user_followers, client_user_followers]
    simp
  · rw [user_followers, client_user_followers]
    simp [Nat.pos_iff_ne_zero.mp hn]
  · rw [List.length_take]
    exact min_le_left n followers.length
  · exact List.take_sublist n followers
  · rfl
  · rw [List.length_take]
    exact min_le_left n results.length
  · exact List.take_sublist n results

/-- Witness for C8 at a concrete follower list and `amount = 2`. -/
theorem C8_witness :
    user_followers { sessionid := some "sid", user_id := some 1 }
        (fun _ _ a => .ok (client_user_followers 3
          [⟨1, "a", "A", false, none⟩, ⟨2, "b", "B", false, none⟩,
           ⟨3, "c", "C", false, none⟩] a)) 9 2
      = .ok (([⟨1, "a", "A", false, none⟩, ⟨2, "b", "B", false, none⟩,
           ⟨3, "c", "C", false, none⟩].take 2).map convert_user_short) :=
  (C8_amount_semantics { sessionid := some "sid", user_id := some 1 } 3
    [⟨1, "a", "A", false, none⟩, ⟨2, "b", "B", false, none⟩,
     ⟨3, "c", "C", false, none⟩]
    [] 0 9 2 "u" "qq" (by decide)).2.1

/-- In a table whose numeric identifiers are pairwise distinct, two rows with
the same identifier carry the same handle. -/
theorem key_unique {db : List (Nat × String)}
    (h : (db.map Prod.fst).Nodup) {a b : Nat × String}
    (ha : a ∈ db) (hb : b ∈ db) (hab : a.1 = b.1) : a.2 = b.2 := by
  induction db with
  | nil => cases ha
  | cons x xs ih =>
    rw [List.map_cons, List.nodup_cons] at h
    rcases List.mem_cons.mp ha with rfl | ha2
    · rcases List.mem_cons.mp hb with rfl | hb2
      · rfl
      · exfalso
        apply h.1
        rw [hab]
        exact List.mem_map.mpr ⟨b, hb2, rfl⟩
    · rcases List.mem_cons.mp hb with rfl | hb2
      · exfalso
        apply h.1
        rw [← hab]
        exact List.mem_map.mpr ⟨a, ha2, rfl⟩
      · exact ih h.2 ha2 hb2

/-- C9: round-trip of the resolution endpoints.  If the id-from-username
endpoint succeeds for some username (over a social graph whose numeric
identifiers are pairwise distinct), then the username-from-id endpoint at the
returned id succeeds and returns exactly the normalised form of the original
username — which is also the username the first endpoint reported. -/
theorem C9_roundtrip (db : List (Nat × String)) (username : String)
    (pk : Nat) (nu : String)
    (hkeys : (db.map Prod.fst).Nodup)
    (hok : user_id_from_username db username = .ok (pk, nu)) :
    username_from_user_id db pk = .ok (pk, strip_username username)
    ∧ nu = strip_username username := by
  simp only [user_id_from_username] at hok
  cases hf : client_user_id_from_username db (strip_username username) with
  | none =>
    rw [hf] at hok
    simp at hok
  | some pk2 =>
    rw [hf] at hok
    simp only [HResp.ok.injEq, Prod.mk.injEq] at hok
    obtain ⟨hpk, hnu⟩ := hok
    subst hpk
    obtain ⟨e, hfind, hpk2⟩ := Option.map_eq_some'.mp hf
    have he_mem : e ∈ db := List.mem_of_find?_eq_some hfind
    have he_name : e.2 = strip_username username := by
      have := List.find?_some hfind
      simpa using this
    have hsome : (db.find? (fun x => x.1 == pk2)).isSome := by
      apply List.find?_isSome.mpr
      exact ⟨e, he_mem, by simp [hpk2]⟩
    obtain ⟨e2, hfind2⟩ := Option.isSome_iff_exists.mp hsome
    have he2_mem : e2 ∈ db := List.mem_of_find?_eq_some hfind2
    have he2_pk : e2.1 = pk2 := by
      have := List.find?_some hfind2
      simpa using this
    have he2_name : e2.2 = e.2 :=
      key_unique hkeys he2_mem he_mem (by rw [he2_pk, hpk2])
    have hclient : client_username_from_user_id db pk2 = some e2.2 := by
      unfold client_username_from_user_id
      rw [hfind2]
      rfl
    constructor
    · unfold username_from_user_id
      rw [hclient, he2_name, he_name]
    · rw [← hnu]

/-- Witness for C9 at a one-row graph and the username `"@jane/"`. -/
theorem C9_witness :
    username_from_user_id [(7, "jane")] 7 = .ok (7, "jane")
    ∧ "jane" = strip_username "@jane/" := by
  have h := C9_roundtrip [(7, "jane")] "@jane/" 7 "jane" (by decide) (by decide)
  exact ⟨h.1, h.2⟩

/-- C10: for every successful response of the bulk comment deletion endpoint,
the reported `deleted_count` equals the length of the input `comment_pks`
list, whatever boolean the client's deletion call returned. -/
theorem C10_deleted_count (media_id_res : Except String String)
    (bulk : String → List Nat → Except String Bool)
    (comment_pks : List Nat) (result : Bool) (n : Nat)
    (h : comment_bulk_delete media_id_res bulk comment_pks = .ok (result, n)) :
    n = comment_pks.length := by
  unfold comment_bulk_delete at h
  cases media_id_res with
  | error e => simp at h
  | ok mid =>
    dsimp only at h
    cases hb : bulk mid comment_pks with
    | error e =>
      rw [hb] at h
      simp at h
    | ok b =>
      rw [hb] at h
      simp only [HResp.ok.injEq, Prod.mk.injEq] at h
      exact h.2.symm

/-- Witness for C10: three comment identifiers, a client that reports
`False`, and a reported `deleted_count` of 3. -/
theorem C10_witness :
    comment_bulk_delete (.ok "9_1") (fun _ _ => .ok false) [1, 2, 3]
      = .ok (false, 3)
    ∧ (3 : Nat) = ([1, 2, 3] : List Nat).length :=
  ⟨rfl, C10_deleted_count (.ok "9_1") (fun _ _ => .ok false) [1, 2, 3] false 3 rfl⟩
